import Mathlib

/-!
Shallow embedding of the TaskFlow session/token lifecycle and tenant-scoped
authorization core, translated from the TypeScript source:
  - AuthService (register, login, refreshAccessToken, logout, getCurrentUser)
  - the authenticate middleware and the global errorHandler
  - the tenantContext middleware
  - the static permission table and the requirePermission gate
Database access (Prisma) is modelled as explicit state passing over lists of
rows; the JWT and password primitives, whose implementation files are not in
the source tree, are abstract parameters or spec-modelled enumerations.
-/

namespace TaskFlow

/-- Role of a member within one organization (the Prisma OrgRole enum). -/
inductive OrgRole where
  | OWNER
  | ADMIN
  | MEMBER
  | GUEST
deriving DecidableEq, Repr, Fintype

/-- The AppError class from error.middleware.ts: a message, an HTTP status
code and a stable machine-readable code string. -/
structure AppError where
  message : String
  statusCode : Nat
  code : String
deriving DecidableEq, Repr

/-- A User row: id, name, unique email, nullable password hash (absent for
OAuth-only accounts), nullable image, creation timestamp. -/
structure User where
  id : String
  name : String
  email : String
  password : Option String
  image : Option String
  createdAt : Int
deriving DecidableEq, Repr

/-- A RefreshToken row: unique token string, owning user id, expiry. -/
structure RefreshTokenRow where
  token : String
  userId : String
  expiresAt : Int
deriving DecidableEq, Repr

/-- An Organization row, keeping the fields the core reads. -/
structure Organization where
  id : String
  name : String
  slug : String
  subscriptionStatus : String
deriving DecidableEq, Repr

/-- An OrganizationMember row: the (organizationId, userId) pair is unique and
carries exactly one role. -/
structure OrganizationMember where
  organizationId : String
  userId : String
  role : OrgRole
deriving DecidableEq, Repr

/-- The relational store the session core touches. -/
structure Db where
  users : List User
  refreshTokens : List RefreshTokenRow
  organizations : List Organization
  members : List OrganizationMember
deriving DecidableEq, Repr

/-- prisma.user.findUnique on the email key. -/
def findUserByEmail (db : Db) (email : String) : Option User :=
  db.users.find? (fun u => u.email == email)

/-- prisma.user.findUnique on the id key. -/
def findUserById (db : Db) (userId : String) : Option User :=
  db.users.find? (fun u => u.id == userId)

/-- prisma.refreshToken.findUnique on the token key. -/
def findRefreshTokenRow (db : Db) (token : String) : Option RefreshTokenRow :=
  db.refreshTokens.find? (fun r => r.token == token)

/-- prisma.organization.findUnique on the id key (the relation loaded by an
include on a membership). -/
def findOrgById (db : Db) (orgId : String) : Option Organization :=
  db.organizations.find? (fun o => o.id == orgId)

/-- prisma.organizationMember.findUnique on the composite
organizationId_userId key. -/
def findMembership (db : Db) (orgId userId : String) : Option OrganizationMember :=
  db.members.find? (fun m => m.organizationId == orgId && m.userId == userId)

/-- The memberships relation of a user, in row order. -/
def membershipsOf (db : Db) (userId : String) : List OrganizationMember :=
  db.members.filter (fun m => m.userId == userId)

/-- date-fns addDays over a millisecond timestamp. -/
def addDays (t : Int) (d : Int) : Int :=
  t + d * 86400000

/-- Claims of an access token: userId and email, with organization id and
role embedded when the user has a first membership. -/
structure AccessTokenPayload where
  userId : String
  email : String
  organizationId : Option String
  role : Option OrgRole
deriving DecidableEq, Repr

/-- Claims of a refresh token: userId and email. -/
structure RefreshTokenPayload where
  userId : String
  email : String
deriving DecidableEq, Repr

/-- Modelled from the spec: the failure kinds of the JWT verification
functions in src/api/src/utils/jwt.ts, a file absent from the source tree.
Verification validates signature and expiry: it fails on an expired token
(signature valid but past expiry), on a signature that does not verify, or
on a malformed payload. -/
inductive JwtError where
  | expired
  | badSignature
  | malformed
deriving DecidableEq, Repr

/-- generateAccessToken, abstract: claims to signed token string. -/
def GenAccess := AccessTokenPayload → String

/-- generateRefreshToken, abstract: claims to signed token string. -/
def GenRefresh := RefreshTokenPayload → String

/-- verifyRefreshToken, abstract: token string to claims or a JwtError. -/
def VerifyRefresh := String → Except JwtError RefreshTokenPayload

/-- verifyAccessToken, abstract: token string to claims or a JwtError. -/
def VerifyAccess := String → Except JwtError AccessTokenPayload

/-- The user shape selected by register and login (no password hash). -/
structure PublicUser where
  id : String
  name : String
  email : String
  image : Option String
  createdAt : Int
deriving DecidableEq, Repr

/-- Result of a successful register call. -/
structure RegisterOk where
  user : PublicUser
  accessToken : String
  refreshToken : String
deriving DecidableEq, Repr

/-- AuthService.register: reject an existing email with USER_EXISTS before
any write; otherwise hash the password, create the user, issue both tokens
and persist the refresh token with a 7-day expiry. -/
def register (hash : String → String) (genAccess : GenAccess) (genRefresh : GenRefresh)
    (newUserId : String) (now : Int) (db : Db) (name email password : String) :
    Except AppError RegisterOk × Db :=
  match findUserByEmail db email with
  | some _ =>
      (.error ⟨"User with this email already exists", 409, "USER_EXISTS"⟩, db)
  | none =>
      let hashedPassword := hash password
      let user : User := ⟨newUserId, name, email, some hashedPassword, none, now⟩
      let db1 : Db := { db with users := db.users ++ [user] }
      let accessToken := genAccess ⟨user.id, user.email, none, none⟩
      let refreshToken := genRefresh ⟨user.id, user.email⟩
      let row : RefreshTokenRow := ⟨refreshToken, user.id, addDays now 7⟩
      let db2 : Db := { db1 with refreshTokens := db1.refreshTokens ++ [row] }
      (.ok ⟨⟨user.id, user.name, user.email, user.image, user.createdAt⟩,
            accessToken, refreshToken⟩, db2)

/-- The single error both login failure paths throw. -/
def invalidCredentialsError : AppError :=
  ⟨"Invalid credentials", 401, "INVALID_CREDENTIALS"⟩

/-- One entry of the organizations list returned by login. -/
structure LoginOrg where
  id : String
  name : String
  slug : String
  role : OrgRole
deriving DecidableEq, Repr

/-- Result of a successful login call. -/
structure LoginOk where
  user : PublicUser
  accessToken : String
  refreshToken : String
  organizations : List LoginOrg
deriving DecidableEq, Repr

/-- AuthService.login: find the user by email (memberships loaded with
take 1); reject with INVALID_CREDENTIALS when no user matches or the stored
password hash is null, and again when the comparison fails; on success embed
the first membership into the access token and persist a refresh token. -/
def login (compare : String → String → Bool) (genAccess : GenAccess)
    (genRefresh : GenRefresh) (now : Int) (db : Db) (email password : String) :
    Except AppError LoginOk × Db :=
  match findUserByEmail db email with
  | none => (.error invalidCredentialsError, db)
  | some user =>
      match user.password with
      | none => (.error invalidCredentialsError, db)
      | some stored =>
          if compare password stored then
            let mems := (membershipsOf db user.id).take 1
            let firstOrg := mems.head?
            let accessToken := genAccess
              ⟨user.id, user.email, firstOrg.map (fun m => m.organizationId),
                firstOrg.map (fun m => m.role)⟩
            let refreshToken := genRefresh ⟨user.id, user.email⟩
            let row : RefreshTokenRow := ⟨refreshToken, user.id, addDays now 7⟩
            let db2 : Db := { db with refreshTokens := db.refreshTokens ++ [row] }
            let orgs := mems.filterMap (fun m =>
              (findOrgById db m.organizationId).map (fun o =>
                LoginOrg.mk o.id o.name o.slug m.role))
            (.ok ⟨⟨user.id, user.name, user.email, user.image, user.createdAt⟩,
                  accessToken, refreshToken, orgs⟩, db2)
          else (.error invalidCredentialsError, db)

/-- Result of a successful refreshAccessToken call. -/
structure RefreshOk where
  accessToken : String
  refreshToken : String
deriving DecidableEq, Repr

/-- The single error refreshAccessToken throws on every failure path (the
catch block rethrows everything under this code). -/
def invalidRefreshError : AppError :=
  ⟨"Invalid or expired refresh token", 401, "TOKEN_INVALID"⟩

/-- The try-block body of AuthService.refreshAccessToken: verify the token
signature, look up the stored row, reject a missing row or one whose stored
expiry is before now, then issue a fresh access token and return the same
refresh token. none stands for any thrown error. -/
def refreshAccessTokenBody (verify : VerifyRefresh) (genAccess : GenAccess)
    (now : Int) (db : Db) (refreshToken : String) : Option RefreshOk :=
  match verify refreshToken with
  | .error _ => none
  | .ok _payload =>
      match findRefreshTokenRow db refreshToken with
      | none => none
      | some storedToken =>
          if storedToken.expiresAt < now then none
          else
            match findUserById db storedToken.userId with
            | none => none
            | some user =>
                let firstOrg := ((membershipsOf db user.id).take 1).head?
                let accessToken := genAccess
                  ⟨user.id, user.email, firstOrg.map (fun m => m.organizationId),
                    firstOrg.map (fun m => m.role)⟩
                some ⟨accessToken, refreshToken⟩

/-- AuthService.refreshAccessToken: the catch block maps every failure of the
body to the one invalidRefreshError; the store is never written. -/
def refreshAccessToken (verify : VerifyRefresh) (genAccess : GenAccess)
    (now : Int) (db : Db) (refreshToken : String) :
    Except AppError RefreshOk × Db :=
  match refreshAccessTokenBody verify genAccess now db refreshToken with
  | some r => (.ok r, db)
  | none => (.error invalidRefreshError, db)

/-- Result of a logout call. -/
structure LogoutOk where
  message : String
deriving DecidableEq, Repr

/-- AuthService.logout: deleteMany of every row matching the token, then an
unconditional success acknowledgement. -/
def logout (db : Db) (refreshToken : String) : Except AppError LogoutOk × Db :=
  let db2 : Db :=
    { db with refreshTokens := db.refreshTokens.filter (fun r => r.token != refreshToken) }
  (.ok ⟨"Logged out successfully"⟩, db2)

/-- Outcome of an express middleware: an errorResponse (message, HTTP status,
code) sent to the client, or a call to next with the request augmented. -/
inductive AuthOutcome where
  | respondError (message : String) (statusCode : Nat) (code : String)
  | proceed (payload : AccessTokenPayload)
deriving DecidableEq, Repr

/-- The authenticate middleware of auth.middleware.ts: reject a missing or
non-Bearer header with 401 UNAUTHORIZED; otherwise strip the first 7
characters and verify; the inner catch maps every verification failure to
401 TOKEN_INVALID. The startsWith check of the source is rendered as
equality of the first 7 characters with the Bearer marker, which is the same
predicate. -/
def authenticate (verifyAccessToken : VerifyAccess) (authHeader : Option String) :
    AuthOutcome :=
  match authHeader with
  | none => .respondError "No authorization token provided" 401 "UNAUTHORIZED"
  | some h =>
      if h.take 7 == "Bearer " then
        match verifyAccessToken (h.drop 7) with
        | .ok payload => .proceed payload
        | .error _ => .respondError "Invalid or expired token" 401 "TOKEN_INVALID"
      else
        .respondError "No authorization token provided" 401 "UNAUTHORIZED"

/-- The shapes of thrown values the global errorHandler distinguishes. -/
inductive Thrown where
  | appError (e : AppError)
  | prismaKnownRequestError (code : String)
  | prismaValidationError
  | jsonWebTokenError
  | tokenExpiredError
  | other
deriving DecidableEq, Repr

/-- The body errorResponse sends: message, HTTP status and code. -/
structure ErrorResponseSent where
  message : String
  statusCode : Nat
  code : String
deriving DecidableEq, Repr

/-- The global errorHandler of error.middleware.ts: Prisma errors first, then
AppError with its own fields, then JWT errors by name (JsonWebTokenError to
TOKEN_INVALID, TokenExpiredError to TOKEN_EXPIRED), else a 500. -/
def errorHandler : Thrown → ErrorResponseSent
  | .prismaKnownRequestError c =>
      if c = "P2002" then ⟨"Unique constraint violation", 409, "DUPLICATE_ENTRY"⟩
      else if c = "P2025" then ⟨"Record not found", 404, "NOT_FOUND"⟩
      else ⟨"Internal server error", 500, "INTERNAL_ERROR"⟩
  | .prismaValidationError => ⟨"Invalid data provided", 400, "VALIDATION_ERROR"⟩
  | .appError e => ⟨e.message, e.statusCode, e.code⟩
  | .jsonWebTokenError => ⟨"Invalid token", 401, "TOKEN_INVALID"⟩
  | .tokenExpiredError => ⟨"Token expired", 401, "TOKEN_EXPIRED"⟩
  | .other => ⟨"Internal server error", 500, "INTERNAL_ERROR"⟩

/-- The req.user object set by authenticate (fields tenantContext reads). -/
structure AuthUser where
  userId : String
  email : String
deriving DecidableEq, Repr

/-- Outcome of the tenantContext middleware. -/
inductive TenantOutcome where
  | respondError (message : String) (statusCode : Nat) (code : String)
  | proceed (organizationId : String) (orgRole : OrgRole)
deriving DecidableEq, Repr

/-- The tenantContext middleware of tenant.middleware.ts: 401 without an
authenticated user; 400 ORG_ID_REQUIRED when the extracted organization id is
falsy (absent or the empty string); 403 ORG_ACCESS_DENIED without a
membership row for (orgId, userId); a missing organization relation would
throw into the catch (500 TENANT_ERROR); 403 ORG_INACTIVE when the
subscription status is not ACTIVE; otherwise proceed with the id and the
role of the membership row. -/
def tenantContext (db : Db) (user : Option AuthUser) (orgId : Option String) :
    TenantOutcome :=
  match user with
  | none => .respondError "Authentication required" 401 "UNAUTHORIZED"
  | some u =>
      match orgId with
      | none => .respondError "Organization ID required" 400 "ORG_ID_REQUIRED"
      | some oid =>
          if oid = "" then
            .respondError "Organization ID required" 400 "ORG_ID_REQUIRED"
          else
            match findMembership db oid u.userId with
            | none =>
                .respondError "Access denied to this organization" 403 "ORG_ACCESS_DENIED"
            | some membership =>
                match findOrgById db membership.organizationId with
                | none =>
                    .respondError "Failed to validate organization context" 500 "TENANT_ERROR"
                | some org =>
                    if org.subscriptionStatus ≠ "ACTIVE" then
                      .respondError "Organization subscription is not active" 403 "ORG_INACTIVE"
                    else
                      .proceed oid membership.role

/-- The keys of the static permission table of permission.middleware.ts. -/
inductive Permission where
  | organizationRead
  | organizationUpdate
  | organizationDelete
  | organizationBilling
  | memberInvite
  | memberRemove
  | memberUpdate
  | projectCreate
  | projectRead
  | projectUpdate
  | projectDelete
  | taskCreate
  | taskRead
  | taskUpdate
  | taskDelete
  | taskAssign
  | commentCreate
  | commentUpdate
  | commentDelete
  | teamCreate
  | teamRead
  | teamUpdate
  | teamDelete
deriving DecidableEq, Repr, Fintype

/-- The key string of each permission, as written in the table. -/
def permissionName : Permission → String
  | .organizationRead => "organization:read"
  | .organizationUpdate => "organization:update"
  | .organizationDelete => "organization:delete"
  | .organizationBilling => "organization:billing"
  | .memberInvite => "member:invite"
  | .memberRemove => "member:remove"
  | .memberUpdate => "member:update"
  | .projectCreate => "project:create"
  | .projectRead => "project:read"
  | .projectUpdate => "project:update"
  | .projectDelete => "project:delete"
  | .taskCreate => "task:create"
  | .taskRead => "task:read"
  | .taskUpdate => "task:update"
  | .taskDelete => "task:delete"
  | .taskAssign => "task:assign"
  | .commentCreate => "comment:create"
  | .commentUpdate => "comment:update"
  | .commentDelete => "comment:delete"
  | .teamCreate => "team:create"
  | .teamRead => "team:read"
  | .teamUpdate => "team:update"
  | .teamDelete => "team:delete"

/-- The static permission table: each action maps to its explicit
allowed-role list, exactly as in the source object literal. -/
def permissions : Permission → List OrgRole
  | .organizationRead => [.OWNER, .ADMIN, .MEMBER, .GUEST]
  | .organizationUpdate => [.OWNER, .ADMIN]
  | .organizationDelete => [.OWNER]
  | .organizationBilling => [.OWNER]
  | .memberInvite => [.OWNER, .ADMIN]
  | .memberRemove => [.OWNER, .ADMIN]
  | .memberUpdate => [.OWNER, .ADMIN]
  | .projectCreate => [.OWNER, .ADMIN, .MEMBER]
  | .projectRead => [.OWNER, .ADMIN, .MEMBER, .GUEST]
  | .projectUpdate => [.OWNER, .ADMIN, .MEMBER]
  | .projectDelete => [.OWNER, .ADMIN]
  | .taskCreate => [.OWNER, .ADMIN, .MEMBER]
  | .taskRead => [.OWNER, .ADMIN, .MEMBER, .GUEST]
  | .taskUpdate => [.OWNER, .ADMIN, .MEMBER]
  | .taskDelete => [.OWNER, .ADMIN, .MEMBER]
  | .taskAssign => [.OWNER, .ADMIN, .MEMBER]
  | .commentCreate => [.OWNER, .ADMIN, .MEMBER, .GUEST]
  | .commentUpdate => [.OWNER, .ADMIN, .MEMBER]
  | .commentDelete => [.OWNER, .ADMIN, .MEMBER]
  | .teamCreate => [.OWNER, .ADMIN]
  | .teamRead => [.OWNER, .ADMIN, .MEMBER, .GUEST]
  | .teamUpdate => [.OWNER, .ADMIN]
  | .teamDelete => [.OWNER, .ADMIN]

/-- Outcome of the requirePermission middleware. -/
inductive PermissionOutcome where
  | respondError (message : String) (statusCode : Nat) (code : String)
  | proceed
deriving DecidableEq, Repr

/-- The requirePermission gate: 403 ROLE_MISSING without a tenant role on the
request, 403 PERMISSION_DENIED when the role is not in the allowed list for
the action, else next. -/
def requirePermission (permission : Permission) (orgRole : Option OrgRole) :
    PermissionOutcome :=
  match orgRole with
  | none => .respondError "Organization role not found" 403 "ROLE_MISSING"
  | some role =>
      let allowedRoles := permissions permission
      if allowedRoles.contains role then
        .proceed
      else
        .respondError ("Insufficient permissions. Required: " ++ permissionName permission)
          403 "PERMISSION_DENIED"

/-! Theorems. -/

/-- After logout deletes every row matching the token, no row with that token
remains to be found. -/
theorem findRefreshTokenRow_logout (db : Db) (t : String) :
    findRefreshTokenRow (logout db t).2 t = none := by
  rw [findRefreshTokenRow, List.find?_eq_none]
  intro r hr
  have hmem := List.mem_filter.mp hr
  simpa using hmem.2

/-- C7: after logout deletes a refresh token, every subsequent
refreshAccessToken call with the same token string fails with the
TOKEN_INVALID error, for every verifier, generator and clock. -/
theorem logout_then_refresh_fails_token_invalid (verify : VerifyRefresh)
    (genAccess : GenAccess) (now : Int) (db : Db) (t : String) :
    (refreshAccessToken verify genAccess now (logout db t).2 t).1 =
      .error invalidRefreshError := by
  unfold refreshAccessToken refreshAccessTokenBody
  cases hv : verify t with
  | error e => simp
  | ok p => simp [findRefreshTokenRow_logout]

/-- C8: logout always returns the success acknowledgement, and running it a
second time with the same token leaves the store exactly as one run does. -/
theorem logout_idempotent (db : Db) (t : String) :
    (logout db t).1 = .ok ⟨"Logged out successfully"⟩ ∧
      logout (logout db t).2 t = logout db t := by
  constructor
  · rfl
  · simp [logout, List.filter_filter]

/-- C4: the permission gate lets a role pass exactly when the role is in the
static table entry for the action, and rejects with PERMISSION_DENIED
otherwise; project:delete admits exactly OWNER and ADMIN; and no hierarchy is
collapsed: GUEST may read projects yet may not update them. -/
theorem requirePermission_characterization :
    (∀ (p : Permission) (r : OrgRole),
        requirePermission p (some r) = .proceed ↔ r ∈ permissions p) ∧
    (∀ (p : Permission) (r : OrgRole),
        r ∉ permissions p →
          requirePermission p (some r) =
            .respondError ("Insufficient permissions. Required: " ++ permissionName p)
              403 "PERMISSION_DENIED") ∧
    (∀ r : OrgRole, r ∈ permissions .projectDelete ↔ (r = .OWNER ∨ r = .ADMIN)) ∧
    (OrgRole.GUEST ∈ permissions .projectRead ∧
      OrgRole.GUEST ∉ permissions .projectUpdate) := by
  refine ⟨?_, ?_, by decide, by decide⟩
  · intro p r
    constructor
    · intro hp
      by_contra hmem
      have hc : (permissions p).contains r = false := by
        simpa [List.contains, List.elem_iff] using hmem
      simp [requirePermission, hc] at hp
      exact hmem hp
    · intro hmem
      have hc : (permissions p).contains r = true := by
        simpa [List.contains, List.elem_iff] using hmem
      simp [requirePermission, hc]
      exact hmem
  · intro p r hmem
    have hc : (permissions p).contains r = false := by
      simpa [List.contains, List.elem_iff] using hmem
    simp [requirePermission, hc]
    exact hmem

/-- Concrete instance of the PERMISSION_DENIED branch of the gate: a MEMBER
may not delete a project. -/
theorem requirePermission_characterization_witness :
    requirePermission .projectDelete (some .MEMBER) =
      .respondError ("Insufficient permissions. Required: " ++ permissionName .projectDelete)
        403 "PERMISSION_DENIED" :=
  requirePermission_characterization.2.1 .projectDelete .MEMBER (by decide)

/-- C3: tenant resolution for an authenticated user fails ORG_ID_REQUIRED
without an organization id; otherwise ORG_ACCESS_DENIED without a membership
row for the pair; otherwise ORG_INACTIVE when the subscription status of the
organization is not ACTIVE even though the membership exists; and on success
it passes through exactly the role recorded in the membership row. -/
theorem tenantContext_resolution (db : Db) (u : AuthUser) :
    (tenantContext db (some u) none =
        .respondError "Organization ID required" 400 "ORG_ID_REQUIRED") ∧
    (∀ oid, oid ≠ "" → findMembership db oid u.userId = none →
        tenantContext db (some u) (some oid) =
          .respondError "Access denied to this organization" 403 "ORG_ACCESS_DENIED") ∧
    (∀ oid m org, oid ≠ "" → findMembership db oid u.userId = some m →
        findOrgById db m.organizationId = some org →
        org.subscriptionStatus ≠ "ACTIVE" →
        tenantContext db (some u) (some oid) =
          .respondError "Organization subscription is not active" 403 "ORG_INACTIVE") ∧
    (∀ oid m org, oid ≠ "" → findMembership db oid u.userId = some m →
        findOrgById db m.organizationId = some org →
        org.subscriptionStatus = "ACTIVE" →
        tenantContext db (some u) (some oid) = .proceed oid m.role) := by
  refine ⟨rfl, ?_, ?_, ?_⟩
  · intro oid hne hmem
    simp [tenantContext, hne, hmem]
  · intro oid m org hne hmem horg hst
    simp [tenantContext, hne, hmem, horg, hst]
  · intro oid m org hne hmem horg hst
    simp [tenantContext, hne, hmem, horg, hst]

/-- A sample authenticated user. -/
def sampleAuthUser : AuthUser := ⟨"u1", "ann@example.com"⟩

/-- A sample user row. -/
def sampleUser : User :=
  ⟨"u1", "Ann", "ann@example.com", some "hashed1", none, 0⟩

/-- An active sample organization. -/
def sampleOrgActive : Organization := ⟨"o1", "Acme", "acme", "ACTIVE"⟩

/-- A past-due sample organization. -/
def sampleOrgPastDue : Organization := ⟨"o2", "Beta", "beta", "PAST_DUE"⟩

/-- Membership of the sample user in the active organization. -/
def sampleMemberActive : OrganizationMember := ⟨"o1", "u1", .MEMBER⟩

/-- Membership of the sample user in the past-due organization. -/
def sampleMemberPastDue : OrganizationMember := ⟨"o2", "u1", .ADMIN⟩

/-- A store with the sample user, both organizations and both memberships. -/
def sampleDb : Db :=
  ⟨[sampleUser], [], [sampleOrgActive, sampleOrgPastDue],
    [sampleMemberActive, sampleMemberPastDue]⟩

/-- Concrete runs of all four tenant resolution branches on the sample
store: missing id, no membership, past-due organization, and success with
the recorded role. -/
theorem tenantContext_resolution_witness :
    tenantContext sampleDb (some sampleAuthUser) none =
        .respondError "Organization ID required" 400 "ORG_ID_REQUIRED" ∧
    tenantContext sampleDb (some sampleAuthUser) (some "o9") =
        .respondError "Access denied to this organization" 403 "ORG_ACCESS_DENIED" ∧
    tenantContext sampleDb (some sampleAuthUser) (some "o2") =
        .respondError "Organization subscription is not active" 403 "ORG_INACTIVE" ∧
    tenantContext sampleDb (some sampleAuthUser) (some "o1") =
        .proceed "o1" OrgRole.MEMBER := by
  obtain ⟨h1, h2, h3, h4⟩ := tenantContext_resolution sampleDb sampleAuthUser
  refine ⟨h1, h2 "o9" (by decide) (by decide), ?_, ?_⟩
  · exact h3 "o2" sampleMemberPastDue sampleOrgPastDue (by decide) (by decide)
      (by decide) (by decide)
  · exact h4 "o1" sampleMemberActive sampleOrgActive (by decide) (by decide)
      (by decide) (by decide)

/-- C5: a login against an email with no user row and a login whose password
comparison fails return the one identical INVALID_CREDENTIALS error with the
store untouched — the two failure causes are indistinguishable. -/
theorem login_failure_indistinguishable (compare : String → String → Bool)
    (genAccess : GenAccess) (genRefresh : GenRefresh) (now : Int) (db : Db)
    (email password : String) :
    (findUserByEmail db email = none →
        login compare genAccess genRefresh now db email password =
          (.error invalidCredentialsError, db)) ∧
    (∀ u h, findUserByEmail db email = some u → u.password = some h →
        compare password h = false →
        login compare genAccess genRefresh now db email password =
          (.error invalidCredentialsError, db)) := by
  constructor
  · intro hu
    simp [login, hu]
  · intro u h hu hp hcmp
    simp [login, hu, hp, hcmp]

/-- Concrete runs of both login failure branches: an unknown email and a
wrong password produce the very same error value. -/
theorem login_failure_indistinguishable_witness :
    login (fun _ _ => false) (fun _ => "at") (fun _ => "rt") 0 sampleDb
        "nobody@example.com" "pw" = (.error invalidCredentialsError, sampleDb) ∧
    login (fun _ _ => false) (fun _ => "at") (fun _ => "rt") 0 sampleDb
        "ann@example.com" "wrong" = (.error invalidCredentialsError, sampleDb) := by
  obtain ⟨h1, h2⟩ := login_failure_indistinguishable (fun _ _ => false)
    (fun _ => "at") (fun _ => "rt") 0 sampleDb "nobody@example.com" "pw"
  obtain ⟨h1b, h2b⟩ := login_failure_indistinguishable (fun _ _ => false)
    (fun _ => "at") (fun _ => "rt") 0 sampleDb "ann@example.com" "wrong"
  exact ⟨h1 (by decide), h2b sampleUser "hashed1" (by decide) (by decide) rfl⟩

/-- C6: when a user row with the given email already exists, register fails
with the 409 USER_EXISTS error and returns the store unchanged — no user row
is created and no token row is persisted. -/
theorem register_existing_email (hash : String → String) (genAccess : GenAccess)
    (genRefresh : GenRefresh) (newUserId : String) (now : Int) (db : Db)
    (name email password : String) (u : User)
    (hu : findUserByEmail db email = some u) :
    register hash genAccess genRefresh newUserId now db name email password =
      (.error ⟨"User with this email already exists", 409, "USER_EXISTS"⟩, db) := by
  simp [register, hu]

/-- Concrete run of the duplicate-email branch of register on the sample
store. -/
theorem register_existing_email_witness :
    register (fun p => p ++ "#h") (fun _ => "at") (fun _ => "rt") "u2" 0 sampleDb
        "Copy" "ann@example.com" "pw2" =
      (.error ⟨"User with this email already exists", 409, "USER_EXISTS"⟩, sampleDb) :=
  register_existing_email (fun p => p ++ "#h") (fun _ => "at") (fun _ => "rt")
    "u2" 0 sampleDb "Copy" "ann@example.com" "pw2" sampleUser (by decide)

/-- A successful body always carries the input token string back out. -/
theorem refreshAccessTokenBody_same_token (verify : VerifyRefresh)
    (genAccess : GenAccess) (now : Int) (db : Db) (t : String) (r : RefreshOk)
    (h : refreshAccessTokenBody verify genAccess now db t = some r) :
    r.refreshToken = t := by
  unfold refreshAccessTokenBody at h
  repeat' split at h
  all_goals simp_all
  all_goals subst h
  all_goals rfl

/-- C9: refreshAccessToken never writes the store (the second component is
the input store on every path), and every successful call returns the very
refresh token it was given — no rotation occurs. -/
theorem refresh_no_rotation (verify : VerifyRefresh) (genAccess : GenAccess)
    (now : Int) (db : Db) (t : String) :
    (refreshAccessToken verify genAccess now db t).2 = db ∧
    (∀ r, (refreshAccessToken verify genAccess now db t).1 = .ok r →
        r.refreshToken = t) := by
  constructor
  · unfold refreshAccessToken
    cases refreshAccessTokenBody verify genAccess now db t <;> rfl
  · intro r hr
    unfold refreshAccessToken at hr
    cases hb : refreshAccessTokenBody verify genAccess now db t with
    | none => rw [hb] at hr; simp at hr
    | some r0 =>
        rw [hb] at hr
        simp only [Except.ok.injEq] at hr
        subst hr
        exact refreshAccessTokenBody_same_token verify genAccess now db t r0 hb

/-- A verifier that accepts every refresh token with the sample claims. -/
def sampleVerifyOk : VerifyRefresh := fun _ => .ok ⟨"u1", "ann@example.com"⟩

/-- An access token generator returning one fixed string. -/
def sampleGenAccess : GenAccess := fun _ => "newAccess"

/-- A store holding a live refresh token row (expiry 100, ahead of clock 10). -/
def sampleDbLive : Db :=
  ⟨[sampleUser], [⟨"rt1", "u1", 100⟩], [sampleOrgActive, sampleOrgPastDue],
    [sampleMemberActive, sampleMemberPastDue]⟩

/-- A store holding an expired refresh token row (expiry 5, behind clock 10). -/
def sampleDbExpired : Db := ⟨[sampleUser], [⟨"rt1", "u1", 5⟩], [], []⟩

/-- Concrete successful refresh: the store is kept and the returned refresh
token is the input one. -/
theorem refresh_no_rotation_witness :
    (refreshAccessToken sampleVerifyOk sampleGenAccess 10 sampleDbLive "rt1").2 =
        sampleDbLive ∧
    (RefreshOk.mk "newAccess" "rt1").refreshToken = "rt1" := by
  obtain ⟨h1, h2⟩ :=
    refresh_no_rotation sampleVerifyOk sampleGenAccess 10 sampleDbLive "rt1"
  exact ⟨h1, h2 ⟨"newAccess", "rt1"⟩ rfl⟩

/-- C10: for a user row whose stored password hash is null, login fails with
the same INVALID_CREDENTIALS error for every supplied password, and the
outcome does not depend on the password comparison function at all. -/
theorem login_null_password_hash (compare compareOther : String → String → Bool)
    (genAccess : GenAccess) (genRefresh : GenRefresh) (now : Int) (db : Db)
    (email password : String) (u : User)
    (hu : findUserByEmail db email = some u) (hp : u.password = none) :
    login compare genAccess genRefresh now db email password =
      (.error invalidCredentialsError, db) ∧
    login compare genAccess genRefresh now db email password =
      login compareOther genAccess genRefresh now db email password := by
  have h1 : ∀ c : String → String → Bool,
      login c genAccess genRefresh now db email password =
        (.error invalidCredentialsError, db) := by
    intro c
    simp [login, hu, hp]
  exact ⟨h1 compare, (h1 compare).trans (h1 compareOther).symm⟩

/-- An OAuth-only sample user: no stored password hash. -/
def sampleOAuthUser : User := ⟨"u3", "Oda", "oda@example.com", none, none, 0⟩

/-- A store holding only the OAuth-only sample user. -/
def sampleDbOAuth : Db := ⟨[sampleOAuthUser], [], [], []⟩

/-- Concrete login against the OAuth-only account: INVALID_CREDENTIALS even
with a comparison function that always accepts, and the same outcome under a
comparison function that always rejects. -/
theorem login_null_password_hash_witness :
    login (fun _ _ => true) (fun _ => "at") (fun _ => "rt") 0 sampleDbOAuth
        "oda@example.com" "anything" =
      (.error invalidCredentialsError, sampleDbOAuth) ∧
    login (fun _ _ => true) (fun _ => "at") (fun _ => "rt") 0 sampleDbOAuth
        "oda@example.com" "anything" =
      login (fun _ _ => false) (fun _ => "at") (fun _ => "rt") 0 sampleDbOAuth
        "oda@example.com" "anything" :=
  login_null_password_hash (fun _ _ => true) (fun _ _ => false) (fun _ => "at")
    (fun _ => "rt") 0 sampleDbOAuth "oda@example.com" "anything" sampleOAuthUser
    (by decide) (by decide)

/-- C1 counterexample: with a verifier that accepts the signature, a token
whose stored row exists but is past its stored expiry (expiry 5, clock 10)
makes refreshAccessToken fail with code TOKEN_INVALID, which is not the
claimed distinct TOKEN_EXPIRED kind. -/
theorem refresh_expired_row_yields_token_invalid_not_expired :
    (refreshAccessToken sampleVerifyOk sampleGenAccess 10 sampleDbExpired "rt1").1 =
      .error ⟨"Invalid or expired refresh token", 401, "TOKEN_INVALID"⟩ ∧
    ("TOKEN_INVALID" : String) ≠ "TOKEN_EXPIRED" :=
  ⟨rfl, by decide⟩

/-- C1 amended: refreshAccessToken fails with the single TOKEN_INVALID error
both when no stored row matches the token and when a row matches but its
stored expiry is before the clock — the two failures are not distinct. -/
theorem refresh_absent_and_expired_both_token_invalid (verify : VerifyRefresh)
    (genAccess : GenAccess) (now : Int) (db : Db) (t : String) :
    (findRefreshTokenRow db t = none →
        (refreshAccessToken verify genAccess now db t).1 =
          .error invalidRefreshError) ∧
    (∀ row, findRefreshTokenRow db t = some row → row.expiresAt < now →
        (refreshAccessToken verify genAccess now db t).1 =
          .error invalidRefreshError) ∧
    invalidRefreshError.code = "TOKEN_INVALID" := by
  refine ⟨?_, ?_, rfl⟩
  · intro hf
    unfold refreshAccessToken refreshAccessTokenBody
    cases hv : verify t with
    | error e => simp
    | ok p => simp [hf]
  · intro row hf hexp
    unfold refreshAccessToken refreshAccessTokenBody
    cases hv : verify t with
    | error e => simp
    | ok p => simp [hf, hexp]

/-- Concrete runs of both branches of the amended C1 statement: a token with
no stored row and a token with an expired stored row get the same error. -/
theorem refresh_absent_and_expired_witness :
    (refreshAccessToken sampleVerifyOk sampleGenAccess 10 sampleDbOAuth "rtX").1 =
        .error invalidRefreshError ∧
    (refreshAccessToken sampleVerifyOk sampleGenAccess 10 sampleDbExpired "rt1").1 =
        .error invalidRefreshError := by
  obtain ⟨h1, _, _⟩ := refresh_absent_and_expired_both_token_invalid
    sampleVerifyOk sampleGenAccess 10 sampleDbOAuth "rtX"
  obtain ⟨_, h2, _⟩ := refresh_absent_and_expired_both_token_invalid
    sampleVerifyOk sampleGenAccess 10 sampleDbExpired "rt1"
  exact ⟨h1 (by decide), h2 ⟨"rt1", "u1", 5⟩ (by decide) (by decide)⟩

/-- A verifier whose only failure kind is an expired token. -/
def sampleVerifyExpired : VerifyAccess := fun _ => .error .expired

/-- A verifier whose only failure kind is a bad signature. -/
def sampleVerifyBadSig : VerifyAccess := fun _ => .error .badSignature

/-- C2 counterexample: a Bearer token whose verification fails only because
it is expired is rejected by the authenticate guard with code TOKEN_INVALID,
which is not the claimed distinct TOKEN_EXPIRED kind. -/
theorem authenticate_expired_yields_token_invalid_not_expired :
    authenticate sampleVerifyExpired (some "Bearer sometoken") =
      .respondError "Invalid or expired token" 401 "TOKEN_INVALID" ∧
    ("TOKEN_INVALID" : String) ≠ "TOKEN_EXPIRED" :=
  ⟨rfl, by decide⟩

/-- C2 amended: the authenticate guard maps every verification failure of a
Bearer token — expired and bad signature alike — to the one 401 TOKEN_INVALID
response; the TOKEN_EXPIRED code exists only in the global errorHandler, for
TokenExpiredError exceptions that reach it. -/
theorem authenticate_collapses_jwt_failures (verify : VerifyAccess)
    (h : String) (e : JwtError) (hs : h.take 7 = "Bearer ")
    (hv : verify (h.drop 7) = .error e) :
    authenticate verify (some h) =
      .respondError "Invalid or expired token" 401 "TOKEN_INVALID" ∧
    errorHandler .tokenExpiredError = ⟨"Token expired", 401, "TOKEN_EXPIRED"⟩ ∧
    errorHandler .jsonWebTokenError = ⟨"Invalid token", 401, "TOKEN_INVALID"⟩ := by
  refine ⟨?_, rfl, rfl⟩
  simp [authenticate, hs, hv]

/-- Concrete rejections of an expired and of a badly signed Bearer token:
both receive the same TOKEN_INVALID response from the guard. -/
theorem authenticate_collapses_jwt_failures_witness :
    authenticate sampleVerifyExpired (some "Bearer abc") =
      .respondError "Invalid or expired token" 401 "TOKEN_INVALID" ∧
    authenticate sampleVerifyBadSig (some "Bearer abc") =
      .respondError "Invalid or expired token" 401 "TOKEN_INVALID" := by
  obtain ⟨h1, _, _⟩ := authenticate_collapses_jwt_failures sampleVerifyExpired
    "Bearer abc" .expired (by decide) rfl
  obtain ⟨h2, _, _⟩ := authenticate_collapses_jwt_failures sampleVerifyBadSig
    "Bearer abc" .badSignature (by decide) rfl
  exact ⟨h1, h2⟩

end TaskFlow
